import Mathlib

/-!
Shallow embedding of the VPFM7 forecasting core (`core.py`) together with
proofs settling the frozen claims C1 to C10.  Python integers are modelled
by `ℕ`/`ℤ`, Python floats by `ℚ` (for the exact arithmetic the simulator
performs) or by `ℝ` (for the transcendental haversine formula), Python
`None`-returning fallthrough by `Option`, and the numpy random draws by
explicit streams of draw results together with a validity flag recording
that every draw was possible (indices in range, positive weight, uniforms
in `[0,1)`).
-/

namespace VPFM

/-! ### `Alg.__init__`: number of simulations (core.py lines 2125-2131) -/

/-- Translation of the `if/elif` ladder choosing `range_value` from
`match_initial_time`.  `none` models falling through every branch (which
would leave the Python variable unbound); the `t0 < 1` test is the third
branch exactly as in the source. -/
def range_value (t0 : ℤ) : Option ℕ :=
  if t0 ≥ 45 then some 2000
  else if t0 < 45 then some 8000
  else if t0 < 1 then some 20000
  else none

/-! ### `Alg.get_status` (core.py lines 2984-2995) -/

/-- Translation of `Alg.get_status`: the (home, away) match-state pair from
the current goal counts.  `none` models the implicit `None` returned if no
branch matched. -/
def get_status (home_goals away_goals : ℤ) : Option (ℚ × ℚ) :=
  let diff := home_goals - away_goals
  if diff = 0 then some (0, 0)
  else if diff = 1 then some (1, -1)
  else if diff > 1 then some (1.5, -1.5)
  else if diff = -1 then some (-1, 1)
  else if diff < -1 then some (-1.5, 1.5)
  else none

/-- Translation of `Alg.get_time_segment` (core.py lines 2997-3009). -/
def get_time_segment (minute : ℕ) : ℕ :=
  if minute < 15 then 1
  else if minute < 30 then 2
  else if minute < 45 then 3
  else if minute < 60 then 4
  else if minute < 75 then 5
  else 6

/-! ### `UpdateSchedule.get_team_elevation_dif` (core.py lines 555-578) -/

inductive ElevMode
  | home
  | away
deriving DecidableEq

/-- Pandas `league_df["team_elevation"].mean()` over the league's teams. -/
def league_elevation_avg (league_elevations : List ℚ) : ℚ :=
  league_elevations.sum / league_elevations.length

/-- Translation of `UpdateSchedule.get_team_elevation_dif` with the DB
lookups abstracted into the two team elevations and the list of league
elevations.  Note the final difference is taken from `home_elevation`
in both modes, exactly as in the source (line 577). -/
def get_team_elevation_dif (home_elevation away_elevation : ℚ)
    (league_elevations : List ℚ) (mode : ElevMode) : ℚ :=
  let league_avg := league_elevation_avg league_elevations
  let reference_avg :=
    match mode with
    | ElevMode.home => (league_avg + home_elevation) / 2
    | ElevMode.away => (league_avg + away_elevation) / 2
  home_elevation - reference_avg

/-! ### `UpdateSchedule.get_travel_distance` (core.py lines 580-604)

The source computes with IEEE doubles; the embedding uses exact reals.
Python `round` is half-to-even, which agrees with `round` on `ℝ` away
from exact half-integers; the values proved about are not half-integers. -/

/-- Translation of `math.radians`. -/
noncomputable def radians (deg : ℝ) : ℝ := deg * (Real.pi / 180)

/-- Translation of `math.atan2` (the standard two-argument arctangent). -/
noncomputable def atan2 (y x : ℝ) : ℝ :=
  if 0 < x then Real.arctan (y / x)
  else if x < 0 ∧ 0 ≤ y then Real.arctan (y / x) + Real.pi
  else if x < 0 then Real.arctan (y / x) - Real.pi
  else if 0 < y then Real.pi / 2
  else if y < 0 then -(Real.pi / 2)
  else 0

/-- Translation of `UpdateSchedule.get_travel_distance` on the two
coordinate pairs (degrees). -/
noncomputable def get_travel_distance (lat1 lon1 lat2 lon2 : ℝ) : ℤ :=
  let lat1_rad := radians lat1
  let lon1_rad := radians lon1
  let lat2_rad := radians lat2
  let lon2_rad := radians lon2
  let dlat := lat2_rad - lat1_rad
  let dlon := lon2_rad - lon1_rad
  let a := Real.sin (dlat / 2) ^ 2 +
    Real.cos lat1_rad * Real.cos lat2_rad * Real.sin (dlon / 2) ^ 2
  let c := 2 * atan2 (Real.sqrt a) (Real.sqrt (1 - a))
  round (6371.0 * c)

end VPFM

namespace VPFM

/-! ### Claims C1, C10, C7, C8 -/

/-- Claim C1: evaluation of the `range_value` ladder.  `t0 ≥ 45` yields
2000 and `1 ≤ t0 < 45` yields 8000 as claimed, but every `t0 < 1` also
yields 8000: the `elif t0 < 1` branch is dead because `t0 < 45` is tested
first, so the claimed 20000 simulations are never selected. -/
theorem range_value_ladder_values :
    range_value 60 = some 2000 ∧ range_value 45 = some 2000 ∧
    range_value 30 = some 8000 ∧ range_value 1 = some 8000 ∧
    range_value 0 = some 8000 ∧ range_value (-3) = some 8000 := by
  decide

/-- Claim C10: `get_status` always returns a defined pair `(h, -h)`, and
the result is invariant under adding the same constant to both goal
counts (it depends only on the goal difference). -/
theorem get_status_defined_antisym_shift_invariant :
    ∀ hg ag : ℤ, (∃ h : ℚ, get_status hg ag = some (h, -h)) ∧
      ∀ c : ℤ, get_status (hg + c) (ag + c) = get_status hg ag := by
  intro hg ag
  refine ⟨?_, ?_⟩
  · simp only [get_status]
    split_ifs
    · exact ⟨0, by norm_num⟩
    · exact ⟨1, by norm_num⟩
    · exact ⟨1.5, by norm_num⟩
    · exact ⟨-1, by norm_num⟩
    · exact ⟨-1.5, by norm_num⟩
    · exfalso
      omega
  · intro c
    simp only [get_status]
    have h : hg + c - (ag + c) = hg - ag := by ring
    rw [h]

/-- Claim C7, counterexample: with home elevation 100, away elevation 0
and league elevations `[100, 0]` (league average 50), the away mode
returns `100 - (50 + 0)/2 = 75`, whereas the claimed formula
`A.elev - (league_avg + A.elev)/2` gives `-25`. -/
theorem get_team_elevation_dif_away_counterexample :
    get_team_elevation_dif 100 0 [100, 0] ElevMode.away = 75 ∧
    (0 : ℚ) - (league_elevation_avg [100, 0] + 0) / 2 = -25 ∧
    (75 : ℚ) ≠ -25 := by
  refine ⟨?_, ?_, by norm_num⟩ <;>
    norm_num [get_team_elevation_dif, league_elevation_avg]

/-- Claim C7, amended: the home elevation difference is
`H.elev - (league_avg + H.elev)/2` as claimed, but the away elevation
difference is `H.elev - (league_avg + A.elev)/2`: only the reference
average switches with the mode, the minuend is always the home (venue)
elevation. -/
theorem get_team_elevation_dif_formulas :
    ∀ (home_elevation away_elevation : ℚ) (league_elevations : List ℚ),
      get_team_elevation_dif home_elevation away_elevation league_elevations ElevMode.home
        = home_elevation - (league_elevation_avg league_elevations + home_elevation) / 2 ∧
      get_team_elevation_dif home_elevation away_elevation league_elevations ElevMode.away
        = home_elevation - (league_elevation_avg league_elevations + away_elevation) / 2 := by
  intro h a l
  exact ⟨rfl, rfl⟩

/-- Claim C8: the haversine distance is 0 for any pair of identical
coordinates, and for `(0,0)` to `(0,180)` it is exactly 20015 km (hence
within the claimed ±1 of 20015). -/
theorem travel_distance_haversine_values :
    (∀ lat lon : ℝ, get_travel_distance lat lon lat lon = 0) ∧
    get_travel_distance 0 0 0 180 = 20015 ∧
    |get_travel_distance 0 0 0 180 - 20015| ≤ 1 := by
  have hzero : ∀ lat lon : ℝ, get_travel_distance lat lon lat lon = 0 := by
    intro lat lon
    simp only [get_travel_distance, sub_self]
    norm_num [atan2, Real.sin_zero, Real.sqrt_zero, Real.sqrt_one,
      Real.arctan_zero]
  have hat : atan2 1 0 = Real.pi / 2 := by
    unfold atan2
    norm_num
  have h180 : radians 180 = Real.pi := by
    unfold radians
    ring
  have hform : get_travel_distance 0 0 0 180 = round ((6371 : ℝ) * Real.pi) := by
    have h0 : radians 0 = 0 := by
      unfold radians
      ring
    simp only [get_travel_distance, h0, h180]
    have e1 : ((0 : ℝ) - 0) / 2 = 0 := by ring
    have e2 : (Real.pi - 0) / 2 = Real.pi / 2 := by ring
    rw [e1, e2, Real.sin_zero, Real.sin_pi_div_two, Real.cos_zero]
    norm_num [Real.sqrt_zero, Real.sqrt_one, hat]
    congr 1
    ring
  have hround : round ((6371 : ℝ) * Real.pi) = 20015 := by
    have h1 := Real.pi_gt_d6
    have h2 := Real.pi_lt_d6
    rw [round_eq]
    apply Int.floor_eq_iff.mpr
    constructor
    · push_cast
      nlinarith
    · push_cast
      nlinarith
  refine ⟨hzero, by rw [hform, hround], by rw [hform, hround]; norm_num⟩

end VPFM

namespace VPFM

/-! ### `Extract_Data.update_matches_info` segment construction
(core.py lines 954-1022) -/

/-- Translation of
`sorted(set(standard_boundaries) | set(event_minutes) | {total_minutes})`
where `event_minutes` collects the substitution, goal and red-card
minutes: the union of sets is modelled by deduplicating the concatenated
lists, and `sorted` by insertion sort (so that the definition evaluates
inside the kernel). -/
def boundaries (goal_minutes red_minutes sub_minutes : List ℕ)
    (total_minutes : ℕ) : List ℕ :=
  (([0, 15, 30, 45, 60, 75] ++ (sub_minutes ++ goal_minutes ++ red_minutes)
      ++ [total_minutes]).dedup).insertionSort (· ≤ ·)

/-- Translation of `zip(boundaries, boundaries[1:])`. -/
def segment_bounds (goal_minutes red_minutes sub_minutes : List ℕ)
    (total_minutes : ℕ) : List (ℕ × ℕ) :=
  (boundaries goal_minutes red_minutes sub_minutes total_minutes).zip
    (boundaries goal_minutes red_minutes sub_minutes total_minutes).tail

/-- The per-segment row `(seg_start, seg_end, minutes_played, match_segment)`
with `seg_duration = seg_end - seg_start` and
`match_segment = min(seg_start // 15 + 1, 6)` as inserted into
`match_detail`. -/
def segment_rows (goal_minutes red_minutes sub_minutes : List ℕ)
    (total_minutes : ℕ) : List (ℕ × ℕ × ℕ × ℕ) :=
  (segment_bounds goal_minutes red_minutes sub_minutes total_minutes).map
    fun p => (p.1, p.2, p.2 - p.1, min (p.1 / 15 + 1) 6)

/-- Claim C5: the segment boundaries are exactly the sorted deduplicated
union of the standard minutes, the event minutes and the total; the
boundary list is strictly sorted; consecutive segments are contiguous
(each segment ends where the next starts); segments are non-overlapping
(each ends no later than any later one starts) and non-empty; and every
emitted row has `minutes_played = end - start` and
`match_segment = min(start/15 + 1, 6)`. -/
theorem segment_partition_spec (G R S : List ℕ) (total : ℕ) :
    (∀ m : ℕ, m ∈ boundaries G R S total ↔
      (m = 0 ∨ m = 15 ∨ m = 30 ∨ m = 45 ∨ m = 60 ∨ m = 75 ∨ m = total ∨
        m ∈ G ∨ m ∈ R ∨ m ∈ S)) ∧
    (boundaries G R S total).Sorted (· < ·) ∧
    (∀ i : ℕ, ∀ h1 : i < (segment_bounds G R S total).length,
      ∀ h2 : i + 1 < (segment_bounds G R S total).length,
      ((segment_bounds G R S total).get ⟨i, h1⟩).2
        = ((segment_bounds G R S total).get ⟨i + 1, h2⟩).1) ∧
    List.Pairwise (fun p q => p.2 ≤ q.1) (segment_bounds G R S total) ∧
    (∀ p ∈ segment_bounds G R S total, p.1 < p.2) ∧
    (∀ r ∈ segment_rows G R S total,
      r.2.2.1 = r.2.1 - r.1 ∧ r.2.2.2 = min (r.1 / 15 + 1) 6 ∧
      (r.1, r.2.1) ∈ segment_bounds G R S total) := by
  have hperm := List.perm_insertionSort (· ≤ ·)
    (([0, 15, 30, 45, 60, 75] ++ (S ++ G ++ R) ++ [total]).dedup)
  have hnd : (boundaries G R S total).Nodup :=
    hperm.symm.nodup (List.nodup_dedup _)
  have hs : (boundaries G R S total).Sorted (· < ·) :=
    (List.sorted_insertionSort _ _).lt_of_le hnd
  have hp := List.pairwise_iff_getElem.mp hs
  refine ⟨?_, hs, ?_, ?_, ?_, ?_⟩
  · intro m
    have hm : m ∈ boundaries G R S total ↔
        m ∈ ([0, 15, 30, 45, 60, 75] ++ (S ++ G ++ R) ++ [total]).dedup :=
      hperm.mem_iff
    rw [hm, List.mem_dedup]
    simp only [List.mem_append, List.mem_cons, List.not_mem_nil, or_false]
    clear hm hperm hnd hs hp
    tauto
  · intro i h1 h2
    simp only [segment_bounds, List.get_eq_getElem, List.getElem_zip,
      List.getElem_tail]
  · rw [List.pairwise_iff_getElem]
    intro i j hi hj hij
    have hi' := hi
    have hj' := hj
    simp only [segment_bounds, List.length_zip, List.length_tail] at hi' hj'
    simp only [segment_bounds, List.getElem_zip, List.getElem_tail]
    rcases Nat.lt_or_ge (i + 1) j with hlt | hge
    · exact le_of_lt (hp (i + 1) j (by omega) (by omega) hlt)
    · have hij2 : i + 1 = j := by omega
      subst hij2
      exact le_of_eq rfl
  · intro p hpmem
    rw [List.mem_iff_getElem] at hpmem
    obtain ⟨i, hi, hig⟩ := hpmem
    have hi' := hi
    simp only [segment_bounds, List.length_zip, List.length_tail] at hi'
    rw [← hig]
    simp only [segment_bounds, List.getElem_zip, List.getElem_tail]
    exact hp i (i + 1) (by omega) (by omega) (by omega)
  · intro r hr
    simp only [segment_rows, List.mem_map] at hr
    obtain ⟨p, hpmem, rfl⟩ := hr
    exact ⟨rfl, rfl, by simpa using hpmem⟩

/-- Witness for C5 on the concrete match with goal minute 23, red-card
minute 77, substitution minute 70 and 90 total minutes. -/
theorem segment_partition_spec_witness :
    ((45, 60) ∈ segment_bounds [23] [77] [70] 90 ∧ 45 < 60) ∧
    (77 ∈ boundaries [23] [77] [70] 90 ↔
      (77 = 0 ∨ 77 = 15 ∨ 77 = 30 ∨ 77 = 45 ∨ 77 = 60 ∨ 77 = 75 ∨ 77 = 90 ∨
        77 ∈ [23] ∨ 77 ∈ [77] ∨ 77 ∈ [70])) := by
  constructor
  · exact ⟨by decide, (segment_partition_spec [23] [77] [70] 90).2.2.2.2.1 (45, 60) (by decide)⟩
  · exact (segment_partition_spec [23] [77] [70] 90).1 77

end VPFM

namespace VPFM

/-! ### `Alg.get_sub_minutes` (core.py lines 2804-2847) -/

/-- Translation of
`max(0, min(avg_subs - (5 - n_subs_avail), n_subs_avail))` computing the
effective substitution count of a team. -/
def effective_subs (avg_subs n_subs_avail : ℤ) : ℤ :=
  max 0 (min (avg_subs - (5 - n_subs_avail)) n_subs_avail)

/-- Window count chosen inside `get_distribution` for nonzero
`avail_subs`. -/
def n_windows (avail_subs : ℕ) : ℕ :=
  if avail_subs = 1 then 1 else if avail_subs < 5 then 2 else 3

/-- Translation of the inner `get_distribution` of `Alg.get_sub_minutes`.
`freq_minutes` stands for the team's historical sub-in minutes strictly
greater than the current match minute ordered by decreasing frequency, so
`top_minutes = value_counts().head(n)` is its `n`-prefix.  The result
maps each chosen window minute to its substitution count;
`avail_subs = 0` returns the literal `{100: 0}` of the source, and `none`
models the `IndexError` raised when fewer than `n` historical minutes
exist. -/
def get_distribution (freq_minutes : List ℕ) (avail_subs : ℕ) :
    Option (List (ℕ × ℕ)) :=
  if avail_subs = 0 then some [(100, 0)]
  else
    let n := n_windows avail_subs
    let top_minutes := freq_minutes.take n
    if n ≤ freq_minutes.length then
      some ((List.range n).map fun i =>
        (top_minutes.getD i 0,
         avail_subs / n + if i < avail_subs % n then 1 else 0))
    else none

/-- Sum of `base + (1 if i < r else 0)` over `i < n`. -/
theorem sum_range_base_ite (base r : ℕ) : ∀ n : ℕ,
    (((List.range n).map fun i => base + if i < r then 1 else 0).sum)
      = n * base + min r n := by
  intro n
  induction n with
  | zero => simp
  | succ k ih =>
    rw [List.range_succ, List.map_append, List.sum_append, ih]
    simp only [List.map_cons, List.map_nil, List.sum_cons, List.sum_nil,
      Nat.add_zero]
    rcases Nat.lt_or_ge k r with hk | hk
    · rw [if_pos hk]
      have h1 : min r k = k := by omega
      have h2 : min r (k + 1) = k + 1 := by omega
      rw [h1, h2, Nat.succ_mul]
      ring
    · rw [if_neg (by omega)]
      have h1 : min r k = r := by omega
      have h2 : min r (k + 1) = r := by omega
      rw [h1, h2, Nat.succ_mul]
      ring

end VPFM

namespace VPFM

/-- Claim C6, counterexample: with historical average 2 substitutions and
2 available, the effective count is `clamp(2 - 3, 0, 2) = 0` and the code
returns the sentinel distribution `{100: 0}`, whose single window minute
100 is not among the top historical sub-in minutes (here `[70, 80]`);
the claimed layout over the top-2 windows would be `{70: 0, 80: 0}`. -/
theorem get_distribution_zero_effective_counterexample :
    effective_subs 2 2 = 0 ∧
    get_distribution [70, 80] 0 = some [(100, 0)] ∧
    (∀ p ∈ [((100 : ℕ), (0 : ℕ))], p.1 ∉ [70, 80]) ∧
    some [((100 : ℕ), (0 : ℕ))] ≠ some [(70, 0), (80, 0)] := by
  decide

/-- Claim C6, amended: the effective substitution count is
`clamp(μ - (5 - available), 0, available)`; whenever it is at least 1
(and enough historical minutes exist) the distribution lays the effective
subs over the first `K` most frequent minutes (`K = 1` if effective = 1,
2 if effective < 5, 3 otherwise), evenly with the remainder on earlier
windows, summing to the effective count; the μ=3, available=5 instance
gives effective 3 split as `{2, 1}` over the top-2 windows.  When the
effective count is 0 the code instead returns the sentinel `{100: 0}`. -/
theorem get_sub_minutes_distribution_spec :
    (∀ mu avail : ℤ, 0 ≤ avail →
      effective_subs mu avail = min avail (max 0 (mu - (5 - avail)))) ∧
    (∀ (freq : List ℕ) (avail : ℕ), 1 ≤ avail → n_windows avail ≤ freq.length →
      ∃ l, get_distribution freq avail = some l ∧
        l.map Prod.fst = freq.take (n_windows avail) ∧
        (l.map Prod.snd).sum = avail ∧
        (∀ p ∈ l, p.2 = avail / n_windows avail + 1 ∨
          p.2 = avail / n_windows avail) ∧
        List.Pairwise (fun a b => b ≤ a) (l.map Prod.snd)) ∧
    effective_subs 3 5 = 3 ∧
    (∀ m1 m2 : ℕ, get_distribution [m1, m2] 3 = some [(m1, 2), (m2, 1)]) := by
  refine ⟨?_, ?_, by decide, ?_⟩
  · intro mu avail h
    simp only [effective_subs]
    omega
  · intro freq avail h1 h2
    refine ⟨(List.range (n_windows avail)).map fun i =>
      ((freq.take (n_windows avail)).getD i 0,
       avail / n_windows avail + if i < avail % n_windows avail then 1 else 0),
      ?_, ?_, ?_, ?_, ?_⟩
    · simp only [get_distribution, if_neg (by omega : ¬avail = 0), if_pos h2]
    · rw [List.map_map]
      apply List.ext_getElem
      · simp [List.length_take]
        omega
      · intro i hi1 hi2
        simp only [List.getElem_map, List.getElem_range, Function.comp_apply]
        rw [List.getD_eq_getElem]
    · rw [List.map_map]
      have hco : (Prod.snd ∘ fun i =>
          ((freq.take (n_windows avail)).getD i 0,
           avail / n_windows avail + if i < avail % n_windows avail then 1 else 0))
          = fun i => avail / n_windows avail +
            if i < avail % n_windows avail then 1 else 0 := rfl
      rw [hco, sum_range_base_ite]
      have hn : 1 ≤ n_windows avail := by
        simp only [n_windows]
        split_ifs <;> omega
      have hm : min (avail % n_windows avail) (n_windows avail)
          = avail % n_windows avail := by
        have := Nat.mod_lt avail (show 0 < n_windows avail by omega)
        omega
      rw [hm]
      exact Nat.div_add_mod avail (n_windows avail)
    · intro p hp
      simp only [List.mem_map, List.mem_range] at hp
      obtain ⟨i, hi, rfl⟩ := hp
      by_cases hc : i < avail % n_windows avail
      · exact Or.inl (by simp [hc])
      · exact Or.inr (by simp [hc])
    · rw [List.map_map, List.pairwise_map]
      rw [List.pairwise_iff_getElem]
      intro i j hi hj hij
      simp only [List.getElem_range, Function.comp_apply]
      split_ifs with hcj hci hci
      · omega
      · simp only [List.length_range] at hi hj
        omega
      · omega
      · omega
  · intro m1 m2
    simp only [get_distribution, n_windows]
    norm_num [List.range_succ, List.getD]

/-- Witness for C6 on a concrete team history: top minutes `[60, 75, 85]`
with 4 effective substitutions split `{2, 1, 1}`...  (4 < 5 gives 2
windows, so the split is `{2, 2}` over `[60, 75]`). -/
theorem get_sub_minutes_distribution_spec_witness :
    effective_subs 4 5 = min 5 (max 0 (4 - (5 - 5))) ∧
    ∃ l, get_distribution [60, 75, 85] 4 = some l ∧
      l.map Prod.fst = [60, 75, 85].take (n_windows 4) ∧
      (l.map Prod.snd).sum = 4 ∧
      (∀ p ∈ l, p.2 = 4 / n_windows 4 + 1 ∨ p.2 = 4 / n_windows 4) ∧
      List.Pairwise (fun a b => b ≤ a) (l.map Prod.snd) :=
  ⟨get_sub_minutes_distribution_spec.1 4 5 (by decide),
   get_sub_minutes_distribution_spec.2.1 [60, 75, 85] 4 (by decide) (by decide)⟩

end VPFM

namespace VPFM

/-! ### `Alg.insert_sim_data` and `DatabaseManager` transactions
(core.py lines 75-112 and 3095-3116)

Every `DB.execute` call opens its own pooled connection via
`_connection`, runs a single statement and commits (rolling back that
one statement on failure).  `insert_sim_data` therefore issues one
auto-committed DELETE followed by one auto-committed INSERT per 200-row
chunk.  A row of `simulation_data` is modelled as
`(schedule_id, payload)`. -/

abbrev SimDataRow := ℕ × ℕ

inductive DbStmt
  | del (schedule_id : ℕ)
  | ins (chunk : List SimDataRow)

/-- Effect of committing one statement: `DELETE FROM simulation_data
WHERE schedule_id = s` keeps the rows of other schedules; an INSERT
appends its chunk. -/
def apply_stmt (db : List SimDataRow) : DbStmt → List SimDataRow
  | DbStmt.del sched => db.filter fun r => r.1 != sched
  | DbStmt.ins chunk => db ++ chunk

/-- The chunks `rows[i:i+batch_size]` of the insert loop
(`batch_size = 200`), implemented with a fuel argument so that it
evaluates structurally; `rows.length` fuel always suffices. -/
def chunks200_go : ℕ → List SimDataRow → List (List SimDataRow)
  | 0, _ => []
  | _, [] => []
  | fuel + 1, rows => rows.take 200 :: chunks200_go fuel (rows.drop 200)

def chunks200 (rows : List SimDataRow) : List (List SimDataRow) :=
  chunks200_go rows.length rows

/-- The sequence of statements `insert_sim_data` executes: the DELETE for
the schedule, then one INSERT per chunk.  Each is committed by its own
transaction. -/
def insert_sim_statements (rows : List SimDataRow) (sched : ℕ) : List DbStmt :=
  DbStmt.del sched :: (chunks200 rows).map DbStmt.ins

/-- Database contents after the first `k` statements have committed: the
state observed if the process fails before statement `k+1`. -/
def run_committed (stmts : List DbStmt) (k : ℕ) (db : List SimDataRow) :
    List SimDataRow :=
  (stmts.take k).foldl apply_stmt db

/-- Folding the INSERT statements of a chunk list appends its
concatenation. -/
theorem foldl_ins_append (cs : List (List SimDataRow)) :
    ∀ db : List SimDataRow,
      (cs.map DbStmt.ins).foldl apply_stmt db = db ++ cs.flatten := by
  induction cs with
  | nil => intro db; simp
  | cons c cs ih =>
    intro db
    simp only [List.map_cons, List.foldl_cons, apply_stmt, List.flatten_cons]
    rw [ih, List.append_assoc]

/-- The concatenation of the first `m` chunks is the first `200 * m`
rows. -/
theorem chunks200_go_take_join : ∀ (m fuel : ℕ) (rows : List SimDataRow),
    rows.length ≤ fuel →
    ((chunks200_go fuel rows).take m).flatten = rows.take (200 * m) := by
  intro m
  induction m with
  | zero => intro fuel rows h; simp
  | succ k ih =>
    intro fuel rows h
    match fuel, rows with
    | 0, rows =>
      have : rows = [] := List.length_eq_zero.mp (by omega)
      subst this
      simp [chunks200_go]
    | fuel + 1, [] => simp [chunks200_go]
    | fuel + 1, r :: rs =>
      rw [show chunks200_go (fuel + 1) (r :: rs)
          = (r :: rs).take 200 :: chunks200_go fuel ((r :: rs).drop 200) from rfl]
      rw [List.take_succ_cons, List.flatten_cons]
      rw [ih fuel ((r :: rs).drop 200) (by simp at h ⊢; omega)]
      rw [← List.take_add]
      congr 1
      omega

/-- Claim C4, amended: the DELETE and each 200-row INSERT batch commit in
separate transactions.  After any `k ≥ 1` committed statements the
database holds the other schedules' rows plus exactly the first
`200 * (k - 1)` new rows: the old rows of the schedule are gone as soon
as the DELETE commits and each batch persists as it commits, so a
failure between statements leaves a partially inserted result. -/
theorem insert_sim_data_committed_prefix :
    ∀ (db rows : List SimDataRow) (sched k : ℕ), 1 ≤ k →
      run_committed (insert_sim_statements rows sched) k db
        = (db.filter fun r => r.1 != sched) ++ rows.take (200 * (k - 1)) := by
  intro db rows sched k hk
  obtain ⟨j, rfl⟩ : ∃ j, k = j + 1 := ⟨k - 1, by omega⟩
  simp only [run_committed, insert_sim_statements, List.take_succ_cons,
    List.foldl_cons]
  rw [show apply_stmt db (DbStmt.del sched)
      = db.filter (fun r => r.1 != sched) from rfl]
  rw [← List.map_take, foldl_ins_append, chunks200,
    chunks200_go_take_join j rows.length rows (le_refl _)]
  simp

/-- Witness for the amended C4 theorem at a concrete database. -/
theorem insert_sim_data_committed_prefix_witness :
    run_committed (insert_sim_statements [(1, 0)] 1) 2 [(1, 9), (2, 7)]
      = ([(1, 9), (2, 7)].filter fun r => r.1 != 1) ++ [(1, 0)].take (200 * (2 - 1)) :=
  insert_sim_data_committed_prefix [(1, 9), (2, 7)] [(1, 0)] 1 2 (by decide)

end VPFM

namespace VPFM

/-- The 201 new rows of the non-atomicity counterexample (two chunks). -/
def c4_rows : List SimDataRow := (List.range 201).map fun i => (1, i)

set_option maxRecDepth 4000 in
/-- Claim C4, counterexample: starting from a database holding one old
row for schedule 1, running `insert_sim_data` with 201 new rows issues
three separately committed statements (DELETE, INSERT of 200 rows,
INSERT of 1 row).  If the process fails after the second statement the
database holds 200 rows: the old row is gone and only part of the new
rows is present, a state equal neither to the initial database nor to
the complete result — so the delete+insert is not a single atomic
transaction. -/
theorem insert_sim_data_not_atomic_counterexample :
    (run_committed (insert_sim_statements c4_rows 1) 2 [(1, 999)]).length = 200 ∧
    (run_committed (insert_sim_statements c4_rows 1) 3 [(1, 999)]).length = 201 ∧
    run_committed (insert_sim_statements c4_rows 1) 2 [(1, 999)] ≠ [(1, 999)] ∧
    run_committed (insert_sim_statements c4_rows 1) 2 [(1, 999)]
      ≠ run_committed (insert_sim_statements c4_rows 1) 3 [(1, 999)] := by
  decide

end VPFM

namespace VPFM

/-! ### The Monte Carlo simulator `Alg._simulate_single`
(core.py lines 2135-2286) and its helpers

Random draws are modelled by explicit streams: `pois` holds the results
of the `np.random.poisson` calls in order, `unif` those of
`np.random.rand`, and `choice` the chosen index of each
`np.random.choice` call.  The `ok` flag stays `true` as long as every
draw was possible for the distribution it was drawn from (a Poisson with
rate 0 yields 0, chosen indices are in range and have positive weight,
uniforms lie in `[0,1)`), so a terminating state with `ok = true` is an
execution the original sampler produces with positive probability. -/

abbrev PlayerId := ℕ

inductive BodyPart
  | Head
  | Foot
deriving DecidableEq

inductive CardKind
  | YC
  | RC
  | NONE
deriving DecidableEq

inductive GameStatus
  | Leading
  | Level
  | Trailing
deriving DecidableEq

/-- The per-player fields of the `players_data` dictionaries that
`_simulate_single` and its helpers read or mutate. -/
structure PlayerData where
  minutes_played : ℕ
  headers : ℚ
  footers : ℚ
  non_assisted_footers : ℚ
  key_passes : ℚ
  off_sh_coef : ℚ
  def_sh_coef : ℚ
  off_headers_coef : ℚ
  def_headers_coef : ℚ
  off_footers_coef : ℚ
  def_footers_coef : ℚ
  off_hxg_coef : ℚ
  def_hxg_coef : ℚ
  off_fxg_coef : ℚ
  def_fxg_coef : ℚ
  fouls_committed : ℚ
  fouls_drawn : ℚ
  yellow_cards : ℚ
  red_cards : ℚ
  in_status_prob : GameStatus → ℚ
  out_status_prob : GameStatus → ℚ
  sim_yellow : ℕ
  sim_red : Bool

/-- The random draw streams together with the validity flag. -/
structure Draws where
  pois : List ℕ
  unif : List ℚ
  choice : List ℕ
  ok : Bool
deriving DecidableEq

/-- One `np.random.poisson(lam)` call: `lam` must be nonnegative and a
zero rate forces a zero count. -/
def draw_poisson (lam : ℚ) (d : Draws) : ℕ × Draws :=
  let n := d.pois.headD 0
  (n, { d with pois := d.pois.tail,
               ok := d.ok && if 0 ≤ lam ∧ (lam = 0 → n = 0) then true else false })

/-- One `np.random.rand()` call: the result lies in `[0, 1)`. -/
def draw_uniform (d : Draws) : ℚ × Draws :=
  let u := d.unif.headD 0
  (u, { d with unif := d.unif.tail,
               ok := d.ok && if 0 ≤ u ∧ u < 1 then true else false })

/-- One `np.random.choice(items, p=weights)` call over an association
list of items and weights: the drawn index must be in range and carry
positive weight. -/
def draw_choice {α : Type} (l : List (α × ℚ)) (dflt : α) (d : Draws) :
    α × Draws :=
  let idx := d.choice.headD 0
  ((l.getD idx (dflt, 0)).1,
   { d with choice := d.choice.tail,
            ok := d.ok &&
              if idx < l.length ∧ 0 < (l.getD idx (dflt, 0)).2 then true
              else false })

/-- Python `value / max(1, minutes)`. -/
def rate_per_min (value : ℚ) (minutes : ℕ) : ℚ :=
  value / ((max 1 minutes : ℕ) : ℚ)

/-- The `_normalise` helper of `build_player_probs`: divide by the total,
or fall back to the uniform distribution when the total is zero. -/
def normalise {α : Type} (l : List (α × ℚ)) : List (α × ℚ) :=
  let tot := (l.map Prod.snd).sum
  if tot = 0 then l.map fun p => (p.1, 1 / (l.length : ℚ))
  else l.map fun p => (p.1, p.2 / tot)

/-- Association-list lookup with default, modelling a Python dict access
whose key is known to be present. -/
def assoc_getD {β : Type} (l : List (PlayerId × β)) (k : PlayerId)
    (dflt : β) : β :=
  ((l.find? fun p => p.1 == k).getD (k, dflt)).2

/-- The shooter/assister probability tables built by
`Alg.build_player_probs` (core.py lines 3029-3076) from the active
players at build time; `none` in an assist distribution is the
unassisted option of footed shots. -/
structure PlayerProbs where
  shooter_head : List (PlayerId × ℚ)
  shooter_foot : List (PlayerId × ℚ)
  assist_head : List (PlayerId × List (Option PlayerId × ℚ))
  assist_foot : List (PlayerId × List (Option PlayerId × ℚ))

/-- Translation of `Alg.build_player_probs`. -/
def build_player_probs (active : List PlayerId)
    (data : PlayerId → PlayerData) : PlayerProbs :=
  let hr := active.map fun p =>
    (p, rate_per_min (data p).headers (data p).minutes_played)
  let fr := active.map fun p =>
    (p, rate_per_min (data p).footers (data p).minutes_played)
  let naf := fun p =>
    rate_per_min (data p).non_assisted_footers (data p).minutes_played
  let kp := fun p =>
    rate_per_min (data p).key_passes (data p).minutes_played
  { shooter_head := normalise hr
    shooter_foot := normalise fr
    assist_foot := active.map fun s =>
      (s, normalise ((none, naf s) ::
        (active.filter fun a => a != s).map fun a => (some a, kp a)))
    assist_head := active.map fun s =>
      (s, normalise ((active.filter fun a => a != s).map fun a => (some a, kp a))) }

/-- Translation of `Alg.get_teams_ra` (core.py lines 2926-2982):
`(team_total_ras, team_rahs, team_rafs, team_plhsq, team_plfsq)`. -/
def get_teams_ra (offensive_players defensive_players : List PlayerId)
    (offensive_data defensive_data : PlayerId → PlayerData) :
    ℚ × ℚ × ℚ × ℚ × ℚ :=
  ((offensive_players.map fun p => (offensive_data p).off_sh_coef).sum
     - (defensive_players.map fun p => (defensive_data p).def_sh_coef).sum,
   (offensive_players.map fun p => (offensive_data p).off_headers_coef).sum
     - (defensive_players.map fun p => (defensive_data p).def_headers_coef).sum,
   (offensive_players.map fun p => (offensive_data p).off_footers_coef).sum
     - (defensive_players.map fun p => (defensive_data p).def_footers_coef).sum,
   (offensive_players.map fun p => (offensive_data p).off_hxg_coef).sum
     - (defensive_players.map fun p => (defensive_data p).def_hxg_coef).sum,
   (offensive_players.map fun p => (offensive_data p).off_fxg_coef).sum
     - (defensive_players.map fun p => (defensive_data p).def_fxg_coef).sum)

/-- Translation of `Alg.get_shot_type` (core.py lines 3011-3027). -/
def get_shot_type (rahs rafs : ℚ) (d : Draws) : BodyPart × Draws :=
  let h := max 0 rahs
  let f := max 0 rafs
  let probs :=
    if h + f = 0 then [(BodyPart.Head, (1 : ℚ) / 2), (BodyPart.Foot, 1 / 2)]
    else [(BodyPart.Head, h / (h + f)), (BodyPart.Foot, f / (h + f))]
  draw_choice probs BodyPart.Head d

/-- Translation of `Alg.get_shooter` (core.py lines 3078-3085). -/
def get_shooter (probs : PlayerProbs) (body : BodyPart) (d : Draws) :
    PlayerId × Draws :=
  draw_choice
    (match body with
     | BodyPart.Head => probs.shooter_head
     | BodyPart.Foot => probs.shooter_foot) 0 d

/-- Translation of `Alg.get_assister` (core.py lines 3087-3093). -/
def get_assister (probs : PlayerProbs) (body : BodyPart)
    (shooter : PlayerId) (d : Draws) : Option PlayerId × Draws :=
  draw_choice
    (assoc_getD
      (match body with
       | BodyPart.Head => probs.assist_head
       | BodyPart.Foot => probs.assist_foot) shooter []) none d

/-- Translation of `Alg.choose_fouler` (core.py lines 3186-3194). -/
def choose_fouler (active : List PlayerId) (data : PlayerId → PlayerData)
    (d : Draws) : PlayerId × Draws :=
  let weights := active.map fun p =>
    (p, rate_per_min (data p).fouls_committed (data p).minutes_played)
  let tot := (weights.map Prod.snd).sum
  let weights :=
    if tot = 0 then active.map fun p => (p, 1 / (active.length : ℚ))
    else weights.map fun p => (p.1, p.2 / tot)
  draw_choice weights 0 d

end VPFM

namespace VPFM

/-- Referee statistics row (`Alg.get_referee_stats`, defaulting to
`{fouls: 26.5, yellow_cards: 3.8, red_cards: 0.14, matches_played: 1}`
when the referee is unknown). -/
structure RefStats where
  fouls : ℚ
  yellow_cards : ℚ
  red_cards : ℚ
  matches_played : ℕ
deriving DecidableEq

/-- The derived card parameters of `Alg.precompute_card_sim_data`
(core.py lines 3129-3141): per-match rates and per-foul card
probabilities. -/
structure CardParams where
  ref_fouls_pm : ℚ
  yc_prob_given_foul : ℚ
  rc_prob_given_foul : ℚ
deriving DecidableEq

/-- Translation of `Alg.precompute_card_sim_data`. -/
def precompute_card_sim_data (rs : RefStats) : CardParams :=
  let rf : ℚ := ((max 1 rs.matches_played : ℕ) : ℚ)
  let ref_fouls_pm := rs.fouls / rf
  let ref_ycs_pm := rs.yellow_cards / rf
  let ref_rcs_pm := rs.red_cards / rf
  { ref_fouls_pm := ref_fouls_pm
    yc_prob_given_foul := ref_ycs_pm / max (1 / 100000) ref_fouls_pm
    rc_prob_given_foul := ref_rcs_pm / max (1 / 100000) ref_fouls_pm }

/-- Translation of `Alg.determine_card` (core.py lines 3196-3225) with
`k = 10` pseudo-fouls. -/
def determine_card (cp : CardParams) (pdata : PlayerData) (d : Draws) :
    CardKind × Draws :=
  let k : ℚ := 10
  let player_yc_rate :=
    (pdata.yellow_cards + k * cp.yc_prob_given_foul) / (pdata.fouls_committed + k)
  let player_rc_rate :=
    (pdata.red_cards + k * cp.rc_prob_given_foul) / (pdata.fouls_committed + k)
  let yc_prob := (1 / 2) * player_yc_rate + (1 / 2) * cp.yc_prob_given_foul
  let rc_prob := (1 / 2) * player_rc_rate + (1 / 2) * cp.rc_prob_given_foul
  let total := yc_prob + rc_prob
  let yc_prob2 := if 1 < total then yc_prob / total else yc_prob
  let rc_prob2 := if 1 < total then rc_prob / total else rc_prob
  let none_prob := 1 - min total 1
  let probs := [(CardKind.YC, max 0 yc_prob2), (CardKind.RC, max 0 rc_prob2),
    (CardKind.NONE, max 0 none_prob)]
  let s := (probs.map Prod.snd).sum
  draw_choice (probs.map fun p => (p.1, p.2 / s)) CardKind.NONE d

/-- Translation of `Alg._calc_team_fouls_per90` (core.py lines
3145-3158). -/
def calc_team_fouls_per90 (active_players opponent_players : List PlayerId)
    (players_data opp_data : PlayerId → PlayerData) : ℚ :=
  let commits_per90 := (active_players.map fun p =>
    rate_per_min (players_data p).fouls_committed (players_data p).minutes_played * 90).sum
  let drawn_per90 := (opponent_players.map fun p =>
    rate_per_min (opp_data p).fouls_drawn (opp_data p).minutes_played * 90).sum
  (commits_per90 + drawn_per90) / 2

/-- Translation of `Alg.get_team_foul_prob` (core.py lines 3160-3184).
The memoisation cache is transparent because it is keyed on every input
of the computation.  `team_factor = {home: 0.95, away: 1.05}` and
`status_factor = {Leading: 0.88, Level: 1.0, Trailing: 1.11}` after the
numeric status is collapsed to its sign. -/
def get_team_foul_prob (cp : CardParams)
    (active_players opponent_players : List PlayerId)
    (players_data opp_data : PlayerId → PlayerData)
    (status : ℚ) (is_home : Bool) : ℚ :=
  let status_sign : ℤ := if 0 < status then 1 else if status < 0 then -1 else 0
  let team_f90 := calc_team_fouls_per90 active_players opponent_players
    players_data opp_data
  let opp_f90 := calc_team_fouls_per90 opponent_players active_players
    opp_data players_data
  let normaliser := (team_f90 + opp_f90 + cp.ref_fouls_pm) / 2
  let adjust_fac := team_f90 / max (1 / 100000) normaliser
  let raw_per_min := team_f90 / 90
  let team_factor : ℚ := if is_home then 0.95 else 1.05
  let status_factor : ℚ :=
    if status_sign = 1 then 0.88 else if status_sign = -1 then 1.11 else 1
  max (raw_per_min * adjust_fac * team_factor * status_factor) (1 / 1000000)

/-- Translation of `interpret_game_status` inside `Alg.swap_players`. -/
def interpret_game_status (status_code : ℚ) : GameStatus :=
  if 0 < status_code then GameStatus.Leading
  else if status_code < 0 then GameStatus.Trailing
  else GameStatus.Level

/-- Sequential model of `np.random.choice(items, p=w, replace=False,
size=k)`: draw one weighted item, remove it, recurse. -/
def pick_without_replacement (l : List (PlayerId × ℚ)) :
    ℕ → Draws → List PlayerId × Draws
  | 0, d => ([], d)
  | k + 1, d =>
    let pd1 := draw_choice l 0 d
    let rest := l.filter fun q => q.1 != pd1.1
    let psd2 := pick_without_replacement rest k pd1.2
    (pd1.1 :: psd2.1, psd2.2)

/-- The out-going or in-coming weight vector of `Alg.swap_players`
(core.py lines 2849-2924): normalise, fall back to uniform on a zero
total, and collapse a lone weight of 1.0 to 0.99 spreading 0.01 over the
rest when more than one player must be picked. -/
def swap_weights (raw : List (PlayerId × ℚ)) (subs : ℕ) :
    List (PlayerId × ℚ) :=
  let tot := (raw.map Prod.snd).sum
  if tot = 0 then raw.map fun p => (p.1, 1 / (raw.length : ℚ))
  else
    let norm := raw.map fun p => (p.1, p.2 / tot)
    if 1 < subs ∧ (norm.map Prod.snd).count 1 = 1 then
      norm.map fun p =>
        (p.1, if p.2 = 1 then 0.99 else 0.01 / ((norm.length : ℚ) - 1))
    else norm

/-- Translation of `Alg.swap_players`: returns the new active list, the
new passive list and the advanced draw streams. -/
def swap_players (active_players passive_players : List PlayerId)
    (players_data : PlayerId → PlayerData) (subs : ℕ) (game_status_n : ℚ)
    (d : Draws) : List PlayerId × List PlayerId × Draws :=
  let g := interpret_game_status game_status_n
  let total_active : ℚ :=
    (active_players.map fun p => ((players_data p).minutes_played : ℚ)).sum
  let active_raw := active_players.map fun p =>
    (p, (1 - ((players_data p).minutes_played : ℚ) / total_active)
      * (players_data p).out_status_prob g)
  let od1 := pick_without_replacement (swap_weights active_raw subs) subs d
  let total_passive : ℚ :=
    (passive_players.map fun p => ((players_data p).minutes_played : ℚ)).sum
  let passive_raw := passive_players.map fun p =>
    (p, (((players_data p).minutes_played : ℚ) / total_passive)
      * (players_data p).in_status_prob g)
  let id2 := pick_without_replacement (swap_weights passive_raw subs) subs od1.2
  ((active_players.filter fun p => decide (p ∉ od1.1)) ++ id2.1,
   passive_players.filter fun p => decide (p ∉ id2.1),
   id2.2)

end VPFM

namespace VPFM

/-- A row of `shot_rows`:
`(i, minute, shooter, team_id, outcome, body_part, assister)`. -/
structure ShotRow where
  sim_id : ℕ
  minute : ℕ
  shooter : PlayerId
  team_id : ℕ
  outcome : ℕ
  body_part : BodyPart
  assister : Option PlayerId
deriving DecidableEq

/-- A row of `card_rows`: `(i, minute, fouler, team_id, card_type)`. -/
structure CardRow where
  sim_id : ℕ
  minute : ℕ
  player : PlayerId
  team_id : ℕ
  card : CardKind
deriving DecidableEq

/-- Ghost observation recorded once per simulated minute: the stale team
rating, the context multiplier and the Poisson rate used for the home
side's shot draw that minute. -/
structure MultEntry where
  minute : ℕ
  ras : ℚ
  mult : ℚ
  lam : ℚ
deriving DecidableEq

/-- The fixture-level inputs of `Alg.__init__` that `_simulate_single`
reads, with the two trained boosters abstracted into the functions they
compute: `ctx_mult_home`/`ctx_mult_away` are the precomputed
`exp(raw margin)` tables of `precompute_ctx_multipliers` indexed by
`(match_state, time_segment, player_dif)`, and `psxg_model` is the value
of the `build_psxg_cache` pipeline for a key that is present in the
cache (indexed by side, the active players at cache-build time, the
`plhsq`/`plfsq` sums, the match state, the player dif passed to the
builder, and the shot key). -/
structure SimParams where
  home_team_id : ℕ
  away_team_id : ℕ
  match_initial_time : ℕ
  home_initial_goals : ℕ
  away_initial_goals : ℕ
  home_starters : List PlayerId
  away_starters : List PlayerId
  home_subs : List PlayerId
  away_subs : List PlayerId
  base_home_data : PlayerId → PlayerData
  base_away_data : PlayerId → PlayerData
  home_sub_minutes : List (ℕ × ℕ)
  away_sub_minutes : List (ℕ × ℕ)
  ctx_mult_home : ℚ → ℕ → ℚ → ℚ
  ctx_mult_away : ℚ → ℕ → ℚ → ℚ
  psxg_model : Bool → List PlayerId → ℚ → ℚ → ℚ → ℚ →
    PlayerId → Option PlayerId → BodyPart → ℚ
  card_params : CardParams

/-- Total wrapper for `get_status` inside the simulation loop (the
`Option` never fires; see
`get_status_defined_antisym_shift_invariant`). -/
def get_statusD (home_goals away_goals : ℕ) : ℚ × ℚ :=
  (get_status (home_goals : ℤ) (away_goals : ℤ)).getD (0, 0)

/-- The lookup `psxg_cache.get((shooter, assister, body), 0.0)` against
the cache built by `Alg.build_psxg_cache` (core.py lines 2683-2746):
keys exist exactly for shooters in the active list at build time and
assisters in `[None] + active_ids`; missing keys yield `0.0`. -/
def psxg_cache_get (params : SimParams) (is_home : Bool)
    (active : List PlayerId) (plhsq plfsq status pdif : ℚ)
    (shooter : PlayerId) (assister : Option PlayerId) (body : BodyPart) : ℚ :=
  let assister_ok :=
    match assister with
    | none => true
    | some a => if a ∈ active then true else false
  if shooter ∈ active ∧ assister_ok = true then
    params.psxg_model is_home active plhsq plfsq status pdif shooter assister body
  else 0

/-- The mutable state of one `_simulate_single` run. -/
structure SimState where
  home_goals : ℕ
  away_goals : ℕ
  home_active : List PlayerId
  away_active : List PlayerId
  home_passive : List PlayerId
  away_passive : List PlayerId
  home_data : PlayerId → PlayerData
  away_data : PlayerId → PlayerData
  home_ras : ℚ
  home_rahs : ℚ
  home_rafs : ℚ
  home_plhsq : ℚ
  home_plfsq : ℚ
  away_ras : ℚ
  away_rahs : ℚ
  away_rafs : ℚ
  away_plhsq : ℚ
  away_plfsq : ℚ
  home_probs : PlayerProbs
  away_probs : PlayerProbs
  home_mult : ℚ
  away_mult : ℚ
  home_context_ras : ℚ
  away_context_ras : ℚ
  home_psxg : PlayerId → Option PlayerId → BodyPart → ℚ
  away_psxg : PlayerId → Option PlayerId → BodyPart → ℚ
  home_foul_p : ℚ
  away_foul_p : ℚ
  ctx_change : Bool
  shot_rows : List ShotRow
  card_rows : List CardRow
  mult_trace_home : List MultEntry
  draws : Draws

end VPFM

namespace VPFM

/-- The `if minute in [16, 31, 46, 61, 76]` block of the minute loop. -/
def phase_flag (minute : ℕ) (s : SimState) : SimState :=
  if minute = 16 ∨ minute = 31 ∨ minute = 46 ∨ minute = 61 ∨ minute = 76 then
    { s with ctx_change := true }
  else s

/-- The `if minute in self.all_sub_minutes` block: perform the due
substitutions, then recompute the team rating sums and the
shooter/assister probability tables from the new active lists. -/
def phase_subs (params : SimParams) (minute : ℕ) (hs ast : ℚ)
    (s : SimState) : SimState :=
  if minute ∈ params.home_sub_minutes.map Prod.fst ∨
      minute ∈ params.away_sub_minutes.map Prod.fst then
    let s := { s with ctx_change := true }
    let s :=
      if minute ∈ params.home_sub_minutes.map Prod.fst then
        let r := swap_players s.home_active s.home_passive s.home_data
          (assoc_getD params.home_sub_minutes minute 0) hs s.draws
        { s with home_active := r.1, home_passive := r.2.1, draws := r.2.2 }
      else s
    let s :=
      if minute ∈ params.away_sub_minutes.map Prod.fst then
        let r := swap_players s.away_active s.away_passive s.away_data
          (assoc_getD params.away_sub_minutes minute 0) ast s.draws
        { s with away_active := r.1, away_passive := r.2.1, draws := r.2.2 }
      else s
    let hra := get_teams_ra s.home_active s.away_active s.home_data s.away_data
    let ara := get_teams_ra s.away_active s.home_active s.away_data s.home_data
    { s with
      home_ras := hra.1, home_rahs := hra.2.1, home_rafs := hra.2.2.1
      home_plhsq := hra.2.2.2.1, home_plfsq := hra.2.2.2.2
      away_ras := ara.1, away_rahs := ara.2.1, away_rafs := ara.2.2.1
      away_plhsq := ara.2.2.2.1, away_plfsq := ara.2.2.2.2
      home_probs := build_player_probs s.home_active s.home_data
      away_probs := build_player_probs s.away_active s.away_data }
  else s

/-- The `if context_ras_change` block: refresh multipliers, context
rates, post-shot caches and foul probabilities (the shooter/assister
probability tables and team rating sums are NOT rebuilt here, exactly as
in the source). -/
def phase_refresh (params : SimParams) (time_segment : ℕ) (hs ast : ℚ)
    (s : SimState) : SimState :=
  if s.ctx_change then
    let home_mult := params.ctx_mult_home hs time_segment 0
    let away_mult := params.ctx_mult_away ast time_segment 0
    { s with
      ctx_change := false
      home_mult := home_mult
      away_mult := away_mult
      home_context_ras := max 0 s.home_ras * home_mult
      away_context_ras := max 0 s.away_ras * away_mult
      home_psxg := psxg_cache_get params true s.home_active s.home_plhsq
        s.home_plfsq hs 0
      away_psxg := psxg_cache_get params false s.away_active s.away_plhsq
        s.away_plfsq ast 0
      home_foul_p := get_team_foul_prob params.card_params s.home_active
        s.away_active s.home_data s.away_data hs true
      away_foul_p := get_team_foul_prob params.card_params s.away_active
        s.home_active s.away_data s.home_data ast false }
  else s

/-- Ghost instrumentation: record the home-side rating, multiplier and
Poisson rate in force this minute (no effect on the simulated data). -/
def phase_trace (minute : ℕ) (s : SimState) : SimState :=
  { s with mult_trace_home := s.mult_trace_home ++
      [⟨minute, s.home_ras, s.home_mult, s.home_context_ras⟩] }

/-- One iteration of the per-shot loop: body part, shooter, assister,
cached post-shot probability (0 on a cache miss), outcome draw, row
append, and goal/context update on a goal. -/
def take_shot (params : SimParams) (i minute : ℕ) (is_home : Bool)
    (s : SimState) : SimState :=
  let probs := if is_home then s.home_probs else s.away_probs
  let bd1 := get_shot_type (if is_home then s.home_rahs else s.away_rahs)
    (if is_home then s.home_rafs else s.away_rafs) s.draws
  let sd2 := get_shooter probs bd1.1 bd1.2
  let ad3 := get_assister probs bd1.1 sd2.1 sd2.2
  let xg_prob := (if is_home then s.home_psxg else s.away_psxg) sd2.1 ad3.1 bd1.1
  let ud4 := draw_uniform ad3.2
  let outcome : ℕ := if ud4.1 < xg_prob then 1 else 0
  let row : ShotRow := ⟨i, minute, sd2.1,
    (if is_home then params.home_team_id else params.away_team_id),
    outcome, bd1.1, ad3.1⟩
  let s := { s with draws := ud4.2, shot_rows := s.shot_rows ++ [row] }
  if outcome = 1 then
    if is_home then { s with home_goals := s.home_goals + 1, ctx_change := true }
    else { s with away_goals := s.away_goals + 1, ctx_change := true }
  else s

/-- One iteration of the per-foul loop: fouler, card draw, row append for
a card, yellow accumulation with second-yellow removal, and immediate
red-card removal. -/
def take_foul (params : SimParams) (i minute : ℕ) (is_home : Bool)
    (s : SimState) : SimState :=
  let active := if is_home then s.home_active else s.away_active
  let data := if is_home then s.home_data else s.away_data
  let fd1 := choose_fouler active data s.draws
  let fouler := fd1.1
  let cd2 := determine_card params.card_params (data fouler) fd1.2
  let card := cd2.1
  let s := { s with draws := cd2.2 }
  let s :=
    if card ≠ CardKind.NONE then
      { s with card_rows := s.card_rows ++ [⟨i, minute, fouler,
          (if is_home then params.home_team_id else params.away_team_id), card⟩] }
    else s
  match card with
  | CardKind.YC =>
    let nd : PlayerId → PlayerData := fun p =>
      if p = fouler then
        { data fouler with sim_yellow := (data fouler).sim_yellow + 1 }
      else data p
    let removed := 2 ≤ (nd fouler).sim_yellow
    if is_home then
      { s with
          home_data := nd
          home_active := if removed then s.home_active.erase fouler else s.home_active
          ctx_change := if removed then true else s.ctx_change }
    else
      { s with
          away_data := nd
          away_active := if removed then s.away_active.erase fouler else s.away_active
          ctx_change := if removed then true else s.ctx_change }
  | CardKind.RC =>
    let nd : PlayerId → PlayerData := fun p =>
      if p = fouler then { data fouler with sim_red := true } else data p
    if is_home then
      if fouler ∈ s.home_active then
        { s with
            home_data := nd
            home_active := s.home_active.erase fouler
            ctx_change := true }
      else { s with home_data := nd }
    else
      if fouler ∈ s.away_active then
        { s with
            away_data := nd
            away_active := s.away_active.erase fouler
            ctx_change := true }
      else { s with away_data := nd }
  | CardKind.NONE => s

/-- `for _ in range(n): take one shot`. -/
def iterate_shots (params : SimParams) (i minute : ℕ) (is_home : Bool) :
    ℕ → SimState → SimState
  | 0, s => s
  | n + 1, s =>
    iterate_shots params i minute is_home n (take_shot params i minute is_home s)

/-- `for _ in range(n): process one foul`. -/
def iterate_fouls (params : SimParams) (i minute : ℕ) (is_home : Bool) :
    ℕ → SimState → SimState
  | 0, s => s
  | n + 1, s =>
    iterate_fouls params i minute is_home n (take_foul params i minute is_home s)

/-- One iteration of `for minute in range(self.match_initial_time, 91)`
in `_simulate_single`, in source order: status and time segment, the
segment-boundary flag, substitutions, the context refresh, the shot
draws and loops for both sides, then the foul draws and loops. -/
def step_minute (params : SimParams) (i : ℕ) (s : SimState) (minute : ℕ) :
    SimState :=
  let st := get_statusD s.home_goals s.away_goals
  let hs := st.1
  let ast := st.2
  let time_segment := get_time_segment minute
  let s := phase_flag minute s
  let s := phase_subs params minute hs ast s
  let s := phase_refresh params time_segment hs ast s
  let s := phase_trace minute s
  let hd := draw_poisson s.home_context_ras s.draws
  let s := { s with draws := hd.2 }
  let ad := draw_poisson s.away_context_ras s.draws
  let s := { s with draws := ad.2 }
  let s := iterate_shots params i minute true hd.1 s
  let s := iterate_shots params i minute false ad.1 s
  let fd := draw_poisson s.home_foul_p s.draws
  let s := { s with draws := fd.2 }
  let s := iterate_fouls params i minute true fd.1 s
  let gd := draw_poisson s.away_foul_p s.draws
  let s := { s with draws := gd.2 }
  let s := iterate_fouls params i minute false gd.1 s
  s

/-- The state set up by `_simulate_single` before its minute loop
(core.py lines 2135-2180). -/
def init_state (params : SimParams) (d : Draws) : SimState :=
  let st := get_statusD params.home_initial_goals params.away_initial_goals
  let hs := st.1
  let ast := st.2
  let time_segment := get_time_segment params.match_initial_time
  let hd := params.base_home_data
  let ad := params.base_away_data
  let hra := get_teams_ra params.home_starters params.away_starters hd ad
  let ara := get_teams_ra params.away_starters params.home_starters ad hd
  let home_mult := params.ctx_mult_home hs time_segment 0
  let away_mult := params.ctx_mult_away ast time_segment 0
  { home_goals := params.home_initial_goals
    away_goals := params.away_initial_goals
    home_active := params.home_starters
    away_active := params.away_starters
    home_passive := params.home_subs
    away_passive := params.away_subs
    home_data := hd
    away_data := ad
    home_ras := hra.1, home_rahs := hra.2.1, home_rafs := hra.2.2.1
    home_plhsq := hra.2.2.2.1, home_plfsq := hra.2.2.2.2
    away_ras := ara.1, away_rahs := ara.2.1, away_rafs := ara.2.2.1
    away_plhsq := ara.2.2.2.1, away_plfsq := ara.2.2.2.2
    home_probs := build_player_probs params.home_starters hd
    away_probs := build_player_probs params.away_starters ad
    home_mult := home_mult
    away_mult := away_mult
    home_context_ras := max 0 hra.1 * home_mult
    away_context_ras := max 0 ara.1 * away_mult
    home_psxg := psxg_cache_get params true params.home_starters
      hra.2.2.2.1 hra.2.2.2.2 hs 0
    away_psxg := psxg_cache_get params false params.away_starters
      ara.2.2.2.1 ara.2.2.2.2 ast 0
    home_foul_p := get_team_foul_prob params.card_params params.home_starters
      params.away_starters hd ad hs true
    away_foul_p := get_team_foul_prob params.card_params params.away_starters
      params.home_starters ad hd ast false
    ctx_change := false
    shot_rows := []
    card_rows := []
    mult_trace_home := []
    draws := d }

/-- Translation of `Alg._simulate_single(i)` under the draw streams `d`:
run the minute loop `range(match_initial_time, 91)` from the initial
state. -/
def simulate_single (params : SimParams) (d : Draws) (i : ℕ) : SimState :=
  (List.range' params.match_initial_time (91 - params.match_initial_time)).foldl
    (step_minute params i) (init_state params d)

/-- The multiprocessing path of `Alg.run_simulations`: results of
`pool.imap_unordered` are concatenated in completion order, modelled by
the `arrival_order` list (a permutation of `range n_sims` chosen by the
scheduler).  `draws_for i` is the draw stream simulation `i` consumes. -/
def run_simulations_pool (params : SimParams) (draws_for : ℕ → Draws)
    (arrival_order : List ℕ) : List ShotRow × List CardRow :=
  arrival_order.foldl
    (fun acc i =>
      let r := simulate_single params (draws_for i) i
      (acc.1 ++ r.shot_rows, acc.2 ++ r.card_rows))
    ([], [])

/-- The single-worker path of `Alg.run_simulations`: simulations run in
index order. -/
def run_simulations_seq (params : SimParams) (draws_for : ℕ → Draws)
    (n_sims : ℕ) : List ShotRow × List CardRow :=
  (List.range n_sims).foldl
    (fun acc i =>
      let r := simulate_single params (draws_for i) i
      (acc.1 ++ r.shot_rows, acc.2 ++ r.card_rows))
    ([], [])

end VPFM

namespace VPFM

/-! ### A concrete in-progress fixture exercising the red-card path

Home team 10 fields players 1 and 2 from minute 88 of a level match;
player 1 carries all of the team's shot production and foul rate.  The
draw streams make player 1 commit a foul drawn as a red card at minute
88 and make the home side take one shot at minute 89. -/

/-- A player row with empty statistics over 90 historical minutes. -/
def ex_player_zero : PlayerData :=
  { minutes_played := 90, headers := 0, footers := 0, non_assisted_footers := 0,
    key_passes := 0, off_sh_coef := 0, def_sh_coef := 0, off_headers_coef := 0,
    def_headers_coef := 0, off_footers_coef := 0, def_footers_coef := 0,
    off_hxg_coef := 0, def_hxg_coef := 0, off_fxg_coef := 0, def_fxg_coef := 0,
    fouls_committed := 0, fouls_drawn := 0, yellow_cards := 0, red_cards := 0,
    in_status_prob := fun _ => 0, out_status_prob := fun _ => 0,
    sim_yellow := 0, sim_red := false }

/-- Home `players_data`: player 1 heads 9 shots per 90 and commits all
fouls; player 2 heads 1 and provides the key passes. -/
def ex_home_data : PlayerId → PlayerData := fun p =>
  if p = 1 then
    { ex_player_zero with
        headers := 9
        off_sh_coef := 1
        off_headers_coef := 1
        fouls_committed := 1 }
  else if p = 2 then
    { ex_player_zero with headers := 1, key_passes := 1 }
  else ex_player_zero

/-- The fixture: t0 = 88, scoreless, no substitutions scheduled; the
context-multiplier table returns 2 for `player_dif = 0` and 3 for any
other player dif, and the referee carries the source's default
statistics. -/
def ex_params : SimParams :=
  { home_team_id := 10, away_team_id := 20, match_initial_time := 88,
    home_initial_goals := 0, away_initial_goals := 0,
    home_starters := [1, 2], away_starters := [11, 12],
    home_subs := [], away_subs := [],
    base_home_data := ex_home_data, base_away_data := fun _ => ex_player_zero,
    home_sub_minutes := [], away_sub_minutes := [],
    ctx_mult_home := fun _ _ pdif => if pdif = 0 then 2 else 3,
    ctx_mult_away := fun _ _ _ => 1,
    psxg_model := fun _ _ _ _ _ _ _ _ _ => 1 / 2,
    card_params := precompute_card_sim_data
      { fouls := 26.5, yellow_cards := 3.8, red_cards := 0.14, matches_played := 1 } }

/-- Draw streams: minute 88 draws no shots, one home foul (fouler index
0 = player 1, card index 1 = red); minute 89 draws one home shot (headed,
shooter index 0, assister index 0) with uniform 1/2; minute 90 draws
nothing. -/
def ex_draws : Draws :=
  { pois := [0, 0, 1, 0, 1, 0, 0, 0, 0, 0, 0, 0],
    unif := [1 / 2],
    choice := [0, 1, 0, 0, 0],
    ok := true }

/-- The simulation run of the scenario. -/
def ex_run : SimState := simulate_single ex_params ex_draws 0

/-- Claim C3: in the concrete run, player 1 is red-carded at minute 88
and removed from the active list immediately (only player 2 remains, and
the slot is never refilled), yet the output still contains a shot row
attributed to player 1 at minute 89 > 88, because `_simulate_single`
rebuilds neither `home_players_prob` nor the team rating sums after a
red card (they are rebuilt only at substitution minutes), so the stale
shooter table still carries player 1 with positive probability.  Every
draw in the run is possible (`ok = true`), so the original sampler
produces this execution with positive probability. -/
theorem red_card_stale_shooter_bug :
    ex_run.card_rows = [⟨0, 88, 1, 10, CardKind.RC⟩] ∧
    ex_run.shot_rows = [⟨0, 89, 1, 10, 0, BodyPart.Head, some 2⟩] ∧
    ex_run.home_active = [2] ∧
    ex_run.draws.ok = true := by
  with_unfolding_all decide

/-- Claim C2, counterexample: at minute 89 of the concrete run the home
side is a player down (red card at 88, red counts 1 vs 0), so the
player-dif derived from the live red-card counts is 1 or -1 depending on
sign convention; the claimed multiplier is the cache entry at that
player dif, which equals 3 here.  The code instead uses the cache entry
with player dif fixed to 0, namely 2: the minute-89 trace entry records
multiplier 2 and shot rate `max(0, 1) * 2 = 2`. -/
theorem ctx_mult_ignores_player_dif_counterexample :
    ex_run.card_rows = [⟨0, 88, 1, 10, CardKind.RC⟩] ∧
    (⟨89, 1, 2, 2⟩ : MultEntry) ∈ ex_run.mult_trace_home ∧
    ex_params.ctx_mult_home 0 6 1 = 3 ∧
    ex_params.ctx_mult_home 0 6 (-1) = 3 ∧
    (2 : ℚ) ≠ 3 := by
  with_unfolding_all decide

end VPFM

namespace VPFM

/-- Unfolding of the row-aggregation fold: the driver's lists are the
concatenation, in arrival order, of each simulation's rows. -/
theorem run_simulations_pool_eq_flatten (params : SimParams)
    (draws_for : ℕ → Draws) :
    ∀ (arrival_order : List ℕ),
      run_simulations_pool params draws_for arrival_order =
        ((arrival_order.map fun i =>
            (simulate_single params (draws_for i) i).shot_rows).flatten,
         (arrival_order.map fun i =>
            (simulate_single params (draws_for i) i).card_rows).flatten) := by
  have key : ∀ (l : List ℕ) (acc : List ShotRow × List CardRow),
      l.foldl (fun acc i =>
        let r := simulate_single params (draws_for i) i
        (acc.1 ++ r.shot_rows, acc.2 ++ r.card_rows)) acc =
      (acc.1 ++ (l.map fun i =>
          (simulate_single params (draws_for i) i).shot_rows).flatten,
       acc.2 ++ (l.map fun i =>
          (simulate_single params (draws_for i) i).card_rows).flatten) := by
    intro l
    induction l with
    | nil => intro acc; simp
    | cons j l ih =>
      intro acc
      simp only [List.foldl_cons, List.map_cons, List.flatten_cons]
      rw [ih]
      simp [List.append_assoc]
  intro arrival_order
  rw [run_simulations_pool, key]
  simp

/-- Claim C9, counterexample: with the simulation draws fixed per
simulation index (the strongest reading of a fixed seed), two possible
completion orders of the 2-simulation pool produce different
`shot_rows` lists: `imap_unordered` concatenates results in arrival
order, which the seed does not determine, so two runs with the same seed
need not be byte-identical. -/
theorem pool_arrival_order_counterexample :
    run_simulations_pool ex_params (fun _ => ex_draws) [0, 1]
      ≠ run_simulations_pool ex_params (fun _ => ex_draws) [1, 0] := by
  with_unfolding_all decide

/-- Claim C9, amended: for a fixed per-simulation draw assignment the
single-worker path is a pure function of the inputs (it equals the pool
path at the identity order), and any pool completion order yields a
permutation of the sequential rows — the multiset of rows is
reproducible, but their order depends on the scheduler. -/
theorem run_simulations_order_spec :
    (∀ (params : SimParams) (draws_for : ℕ → Draws) (n : ℕ),
      run_simulations_seq params draws_for n
        = run_simulations_pool params draws_for (List.range n)) ∧
    (∀ (params : SimParams) (draws_for : ℕ → Draws) (n : ℕ)
      (arrival_order : List ℕ), arrival_order.Perm (List.range n) →
      (run_simulations_pool params draws_for arrival_order).1.Perm
        (run_simulations_seq params draws_for n).1 ∧
      (run_simulations_pool params draws_for arrival_order).2.Perm
        (run_simulations_seq params draws_for n).2) := by
  refine ⟨fun params draws_for n => rfl, ?_⟩
  intro params draws_for n arrival_order hperm
  rw [show run_simulations_seq params draws_for n
      = run_simulations_pool params draws_for (List.range n) from rfl]
  rw [run_simulations_pool_eq_flatten, run_simulations_pool_eq_flatten]
  exact ⟨((hperm.map _).flatten), ((hperm.map _).flatten)⟩

/-- Witness for the amended C9 theorem: the reversed completion order of
the two-simulation pool is a permutation of the sequential output. -/
theorem run_simulations_order_spec_witness :
    (run_simulations_pool ex_params (fun _ => ex_draws) [1, 0]).1.Perm
      (run_simulations_seq ex_params (fun _ => ex_draws) 2).1 ∧
    (run_simulations_pool ex_params (fun _ => ex_draws) [1, 0]).2.Perm
      (run_simulations_seq ex_params (fun _ => ex_draws) 2).2 :=
  run_simulations_order_spec.2 ex_params (fun _ => ex_draws) 2 [1, 0]
    (by decide)

end VPFM

namespace VPFM

/-! ### Context-multiplier bookkeeping lemmas for claim C2 -/

theorem take_shot_home_ras (params : SimParams) (i minute : ℕ) (b : Bool)
    (s : SimState) : (take_shot params i minute b s).home_ras = s.home_ras := by
  simp only [take_shot]
  split_ifs <;> rfl

theorem take_shot_home_mult (params : SimParams) (i minute : ℕ) (b : Bool)
    (s : SimState) : (take_shot params i minute b s).home_mult = s.home_mult := by
  simp only [take_shot]
  split_ifs <;> rfl

theorem take_shot_home_context_ras (params : SimParams) (i minute : ℕ)
    (b : Bool) (s : SimState) :
    (take_shot params i minute b s).home_context_ras = s.home_context_ras := by
  simp only [take_shot]
  split_ifs <;> rfl

theorem take_shot_trace (params : SimParams) (i minute : ℕ) (b : Bool)
    (s : SimState) :
    (take_shot params i minute b s).mult_trace_home = s.mult_trace_home := by
  simp only [take_shot]
  split_ifs <;> rfl

theorem take_foul_home_ras (params : SimParams) (i minute : ℕ) (b : Bool)
    (s : SimState) : (take_foul params i minute b s).home_ras = s.home_ras := by
  simp only [take_foul]
  split <;> split_ifs <;> rfl

theorem take_foul_home_mult (params : SimParams) (i minute : ℕ) (b : Bool)
    (s : SimState) : (take_foul params i minute b s).home_mult = s.home_mult := by
  simp only [take_foul]
  split <;> split_ifs <;> rfl

theorem take_foul_home_context_ras (params : SimParams) (i minute : ℕ)
    (b : Bool) (s : SimState) :
    (take_foul params i minute b s).home_context_ras = s.home_context_ras := by
  simp only [take_foul]
  split <;> split_ifs <;> rfl

theorem take_foul_trace (params : SimParams) (i minute : ℕ) (b : Bool)
    (s : SimState) :
    (take_foul params i minute b s).mult_trace_home = s.mult_trace_home := by
  simp only [take_foul]
  split <;> split_ifs <;> rfl

theorem iterate_shots_home_ras (params : SimParams) (i minute : ℕ) (b : Bool) :
    ∀ (n : ℕ) (s : SimState),
      (iterate_shots params i minute b n s).home_ras = s.home_ras := by
  intro n
  induction n with
  | zero => intro s; rfl
  | succ k ih =>
    intro s
    rw [iterate_shots, ih, take_shot_home_ras]

theorem iterate_shots_home_mult (params : SimParams) (i minute : ℕ) (b : Bool) :
    ∀ (n : ℕ) (s : SimState),
      (iterate_shots params i minute b n s).home_mult = s.home_mult := by
  intro n
  induction n with
  | zero => intro s; rfl
  | succ k ih =>
    intro s
    rw [iterate_shots, ih, take_shot_home_mult]

theorem iterate_shots_home_context_ras (params : SimParams) (i minute : ℕ)
    (b : Bool) : ∀ (n : ℕ) (s : SimState),
      (iterate_shots params i minute b n s).home_context_ras
        = s.home_context_ras := by
  intro n
  induction n with
  | zero => intro s; rfl
  | succ k ih =>
    intro s
    rw [iterate_shots, ih, take_shot_home_context_ras]

theorem iterate_shots_trace (params : SimParams) (i minute : ℕ) (b : Bool) :
    ∀ (n : ℕ) (s : SimState),
      (iterate_shots params i minute b n s).mult_trace_home
        = s.mult_trace_home := by
  intro n
  induction n with
  | zero => intro s; rfl
  | succ k ih =>
    intro s
    rw [iterate_shots, ih, take_shot_trace]

theorem iterate_fouls_home_ras (params : SimParams) (i minute : ℕ) (b : Bool) :
    ∀ (n : ℕ) (s : SimState),
      (iterate_fouls params i minute b n s).home_ras = s.home_ras := by
  intro n
  induction n with
  | zero => intro s; rfl
  | succ k ih =>
    intro s
    rw [iterate_fouls, ih, take_foul_home_ras]

theorem iterate_fouls_home_mult (params : SimParams) (i minute : ℕ) (b : Bool) :
    ∀ (n : ℕ) (s : SimState),
      (iterate_fouls params i minute b n s).home_mult = s.home_mult := by
  intro n
  induction n with
  | zero => intro s; rfl
  | succ k ih =>
    intro s
    rw [iterate_fouls, ih, take_foul_home_mult]

theorem iterate_fouls_home_context_ras (params : SimParams) (i minute : ℕ)
    (b : Bool) : ∀ (n : ℕ) (s : SimState),
      (iterate_fouls params i minute b n s).home_context_ras
        = s.home_context_ras := by
  intro n
  induction n with
  | zero => intro s; rfl
  | succ k ih =>
    intro s
    rw [iterate_fouls, ih, take_foul_home_context_ras]

theorem iterate_fouls_trace (params : SimParams) (i minute : ℕ) (b : Bool) :
    ∀ (n : ℕ) (s : SimState),
      (iterate_fouls params i minute b n s).mult_trace_home
        = s.mult_trace_home := by
  intro n
  induction n with
  | zero => intro s; rfl
  | succ k ih =>
    intro s
    rw [iterate_fouls, ih, take_foul_trace]

end VPFM

namespace VPFM

theorem phase_flag_ctx_change (minute : ℕ) (s : SimState) :
    (phase_flag minute s).ctx_change =
      if minute = 16 ∨ minute = 31 ∨ minute = 46 ∨ minute = 61 ∨ minute = 76
      then true else s.ctx_change := by
  simp only [phase_flag]
  split_ifs <;> rfl

theorem phase_flag_home_ras (minute : ℕ) (s : SimState) :
    (phase_flag minute s).home_ras = s.home_ras := by
  simp only [phase_flag]
  split_ifs <;> rfl

theorem phase_flag_home_mult (minute : ℕ) (s : SimState) :
    (phase_flag minute s).home_mult = s.home_mult := by
  simp only [phase_flag]
  split_ifs <;> rfl

theorem phase_flag_home_context_ras (minute : ℕ) (s : SimState) :
    (phase_flag minute s).home_context_ras = s.home_context_ras := by
  simp only [phase_flag]
  split_ifs <;> rfl

theorem phase_flag_trace (minute : ℕ) (s : SimState) :
    (phase_flag minute s).mult_trace_home = s.mult_trace_home := by
  simp only [phase_flag]
  split_ifs <;> rfl

theorem phase_flag_of_not (minute : ℕ) (s : SimState)
    (h : ¬(minute = 16 ∨ minute = 31 ∨ minute = 46 ∨ minute = 61 ∨ minute = 76)) :
    phase_flag minute s = s := by
  simp only [phase_flag, if_neg h]

theorem phase_subs_ctx_change (params : SimParams) (minute : ℕ) (hs ast : ℚ)
    (s : SimState) :
    (phase_subs params minute hs ast s).ctx_change =
      if minute ∈ params.home_sub_minutes.map Prod.fst ∨
          minute ∈ params.away_sub_minutes.map Prod.fst
      then true else s.ctx_change := by
  simp only [phase_subs]
  split_ifs <;> rfl

theorem phase_subs_home_mult (params : SimParams) (minute : ℕ) (hs ast : ℚ)
    (s : SimState) :
    (phase_subs params minute hs ast s).home_mult = s.home_mult := by
  simp only [phase_subs]
  split_ifs <;> rfl

theorem phase_subs_home_context_ras (params : SimParams) (minute : ℕ)
    (hs ast : ℚ) (s : SimState) :
    (phase_subs params minute hs ast s).home_context_ras
      = s.home_context_ras := by
  simp only [phase_subs]
  split_ifs <;> rfl

theorem phase_subs_trace (params : SimParams) (minute : ℕ) (hs ast : ℚ)
    (s : SimState) :
    (phase_subs params minute hs ast s).mult_trace_home
      = s.mult_trace_home := by
  simp only [phase_subs]
  split_ifs <;> rfl

theorem phase_subs_of_not (params : SimParams) (minute : ℕ) (hs ast : ℚ)
    (s : SimState)
    (h : ¬(minute ∈ params.home_sub_minutes.map Prod.fst ∨
        minute ∈ params.away_sub_minutes.map Prod.fst)) :
    phase_subs params minute hs ast s = s := by
  simp only [phase_subs, if_neg h]

theorem phase_refresh_home_mult (params : SimParams) (tsg : ℕ) (hs ast : ℚ)
    (s : SimState) :
    (phase_refresh params tsg hs ast s).home_mult =
      if s.ctx_change then params.ctx_mult_home hs tsg 0 else s.home_mult := by
  simp only [phase_refresh]
  split_ifs <;> rfl

theorem phase_refresh_home_ras (params : SimParams) (tsg : ℕ) (hs ast : ℚ)
    (s : SimState) :
    (phase_refresh params tsg hs ast s).home_ras = s.home_ras := by
  simp only [phase_refresh]
  split_ifs <;> rfl

theorem phase_refresh_home_context_ras (params : SimParams) (tsg : ℕ)
    (hs ast : ℚ) (s : SimState) :
    (phase_refresh params tsg hs ast s).home_context_ras =
      if s.ctx_change then max 0 s.home_ras * params.ctx_mult_home hs tsg 0
      else s.home_context_ras := by
  simp only [phase_refresh]
  split_ifs <;> rfl

theorem phase_refresh_trace (params : SimParams) (tsg : ℕ) (hs ast : ℚ)
    (s : SimState) :
    (phase_refresh params tsg hs ast s).mult_trace_home
      = s.mult_trace_home := by
  simp only [phase_refresh]
  split_ifs <;> rfl

/-- Whether the `context_ras_change` refresh fires at this minute: it was
pending from the previous minute, or the minute is one of the
segment-boundary minutes, or a substitution minute of either team. -/
def refresh_condition (params : SimParams) (minute : ℕ) (s : SimState) : Bool :=
  if minute ∈ params.home_sub_minutes.map Prod.fst ∨
      minute ∈ params.away_sub_minutes.map Prod.fst then true
  else if minute = 16 ∨ minute = 31 ∨ minute = 46 ∨ minute = 61 ∨ minute = 76
  then true
  else s.ctx_change

theorem phases_ctx_change (params : SimParams) (minute : ℕ) (hs ast : ℚ)
    (s : SimState) :
    (phase_subs params minute hs ast (phase_flag minute s)).ctx_change
      = refresh_condition params minute s := by
  rw [phase_subs_ctx_change, phase_flag_ctx_change, refresh_condition]

end VPFM

namespace VPFM

/-- The multiplier in force after the refresh block of a minute: when
the refresh fires it is the table entry at the current status and
segment with player dif 0, otherwise the previous minute's value. -/
theorem step_minute_home_mult (params : SimParams) (i : ℕ) (s : SimState)
    (minute : ℕ) :
    (step_minute params i s minute).home_mult =
      if refresh_condition params minute s = true then
        params.ctx_mult_home (get_statusD s.home_goals s.away_goals).1
          (get_time_segment minute) 0
      else s.home_mult := by
  simp only [step_minute, iterate_fouls_home_mult, iterate_shots_home_mult,
    phase_trace]
  rw [phase_refresh_home_mult, phases_ctx_change, phase_subs_home_mult,
    phase_flag_home_mult]

/-- The context-multiplier invariant carried by every reachable
simulation state: the current multiplier is a table entry with player
dif 0, the Poisson rate is `max(0, ras) * mult` for the (possibly stale)
stored rating, and every recorded minute satisfied both. -/
def ctx_invariant (params : SimParams) (s : SimState) : Prop :=
  (∃ st sg, s.home_mult = params.ctx_mult_home st sg 0) ∧
  s.home_context_ras = max 0 s.home_ras * s.home_mult ∧
  ∀ e ∈ s.mult_trace_home,
    e.lam = max 0 e.ras * e.mult ∧
    ∃ st sg, e.mult = params.ctx_mult_home st sg 0

theorem ctx_invariant_congr (params : SimParams) {t s : SimState}
    (h1 : t.home_ras = s.home_ras) (h2 : t.home_mult = s.home_mult)
    (h3 : t.home_context_ras = s.home_context_ras)
    (h4 : t.mult_trace_home = s.mult_trace_home)
    (h : ctx_invariant params s) : ctx_invariant params t := by
  unfold ctx_invariant at h ⊢
  rw [h1, h2, h3, h4]
  exact h

theorem init_state_ctx_invariant (params : SimParams) (d : Draws) :
    ctx_invariant params (init_state params d) := by
  refine ⟨⟨(get_statusD params.home_initial_goals params.away_initial_goals).1,
    get_time_segment params.match_initial_time, rfl⟩, rfl, ?_⟩
  intro e he
  have h : (init_state params d).mult_trace_home = [] := rfl
  rw [h] at he
  exact absurd he (List.not_mem_nil e)

theorem phase_trace_ctx_invariant (params : SimParams) (minute : ℕ)
    (s : SimState) (h : ctx_invariant params s) :
    ctx_invariant params (phase_trace minute s) := by
  obtain ⟨h1, h2, h3⟩ := h
  refine ⟨h1, h2, ?_⟩
  intro e he
  simp only [phase_trace, List.mem_append, List.mem_singleton] at he
  rcases he with he | rfl
  · exact h3 e he
  · exact ⟨h2, h1⟩

theorem refresh_chain_ctx_invariant (params : SimParams) (minute tsg : ℕ)
    (hs ast : ℚ) (s : SimState) (h : ctx_invariant params s) :
    ctx_invariant params (phase_refresh params tsg hs ast
      (phase_subs params minute hs ast (phase_flag minute s))) := by
  set s2 := phase_subs params minute hs ast (phase_flag minute s) with hs2
  by_cases hc : s2.ctx_change = true
  · refine ⟨⟨hs, tsg, ?_⟩, ?_, ?_⟩
    · rw [phase_refresh_home_mult, if_pos hc]
    · rw [phase_refresh_home_context_ras, phase_refresh_home_mult,
        phase_refresh_home_ras, if_pos hc, if_pos hc]
    · intro e he
      rw [phase_refresh_trace] at he
      have ht : s2.mult_trace_home = s.mult_trace_home := by
        rw [hs2, phase_subs_trace, phase_flag_trace]
      rw [ht] at he
      exact h.2.2 e he
  · have hsub : ¬(minute ∈ params.home_sub_minutes.map Prod.fst ∨
        minute ∈ params.away_sub_minutes.map Prod.fst) := by
      intro hmem
      exact hc (by rw [hs2, phase_subs_ctx_change, if_pos hmem])
    have hflag : ¬(minute = 16 ∨ minute = 31 ∨ minute = 46 ∨ minute = 61 ∨
        minute = 76) := by
      intro hf
      exact hc (by
        rw [hs2, phase_subs_ctx_change, if_neg hsub, phase_flag_ctx_change,
          if_pos hf])
    have hid : s2 = s := by
      rw [hs2, phase_flag_of_not minute s hflag,
        phase_subs_of_not params minute hs ast s hsub]
    rw [phase_refresh, if_neg hc, hid]
    exact h

theorem step_minute_ctx_invariant (params : SimParams) (i minute : ℕ)
    (s : SimState) (h : ctx_invariant params s) :
    ctx_invariant params (step_minute params i s minute) := by
  have h4 := phase_trace_ctx_invariant params minute _
    (refresh_chain_ctx_invariant params minute (get_time_segment minute)
      (get_statusD s.home_goals s.away_goals).1
      (get_statusD s.home_goals s.away_goals).2 s h)
  refine ctx_invariant_congr params ?_ ?_ ?_ ?_ h4
  · simp only [step_minute, iterate_fouls_home_ras, iterate_shots_home_ras]
  · simp only [step_minute, iterate_fouls_home_mult, iterate_shots_home_mult]
  · simp only [step_minute, iterate_fouls_home_context_ras,
      iterate_shots_home_context_ras]
  · simp only [step_minute, iterate_fouls_trace, iterate_shots_trace]

theorem foldl_step_ctx_invariant (params : SimParams) (i : ℕ) :
    ∀ (l : List ℕ) (s : SimState), ctx_invariant params s →
      ctx_invariant params (l.foldl (step_minute params i) s) := by
  intro l
  induction l with
  | nil => intro s h; exact h
  | cons m l ih =>
    intro s h
    rw [List.foldl_cons]
    exact ih _ (step_minute_ctx_invariant params i m s h)

theorem simulate_single_ctx_invariant (params : SimParams) (d : Draws)
    (i : ℕ) : ctx_invariant params (simulate_single params d i) :=
  foldl_step_ctx_invariant params i _ _ (init_state_ctx_invariant params d)

end VPFM

namespace VPFM

/-- Claim C2, amended: the shot rate used each minute is
`max(0, team_RAS) * mult` for the stored (possibly stale) team rating,
where `mult` is always a precomputed cache entry whose player-dif key is
the constant 0 — never derived from the live red-card counts; and the
multiplier is re-looked-up (at the current match state, the current time
segment, and player dif 0) exactly when the refresh condition fires: a
pending context change from the previous minute, one of the minutes
16/31/46/61/76, or a substitution minute — otherwise the previous
multiplier is reused. -/
theorem ctx_mult_usage_spec :
    (∀ (params : SimParams) (d : Draws) (i : ℕ) (e : MultEntry),
      e ∈ (simulate_single params d i).mult_trace_home →
      e.lam = max 0 e.ras * e.mult ∧
      ∃ st sg, e.mult = params.ctx_mult_home st sg 0) ∧
    (∀ (params : SimParams) (i : ℕ) (s : SimState) (minute : ℕ),
      (step_minute params i s minute).home_mult =
        if refresh_condition params minute s = true then
          params.ctx_mult_home (get_statusD s.home_goals s.away_goals).1
            (get_time_segment minute) 0
        else s.home_mult) := by
  constructor
  · intro params d i e he
    exact (simulate_single_ctx_invariant params d i).2.2 e he
  · intro params i s minute
    exact step_minute_home_mult params i s minute

/-- Witness for the amended C2 theorem at the minute-89 entry of the
concrete run. -/
theorem ctx_mult_usage_spec_witness :
    (⟨89, 1, 2, 2⟩ : MultEntry).lam =
      max 0 (⟨89, 1, 2, 2⟩ : MultEntry).ras * (⟨89, 1, 2, 2⟩ : MultEntry).mult ∧
    ∃ st sg, (⟨89, 1, 2, 2⟩ : MultEntry).mult
      = ex_params.ctx_mult_home st sg 0 :=
  ctx_mult_usage_spec.1 ex_params ex_draws 0 ⟨89, 1, 2, 2⟩
    (by with_unfolding_all decide)

end VPFM
